import Mathlib

/-!
Verification of the SLMM NL43 gateway core (`src/app/services.py`,
`src/app/background_poller.py`) against its natural-language specification.

The Python code is shallowly embedded: database rows become records, timestamps
become natural numbers (seconds of UTC time), wall-clock instants in the rate
governor become rationals, and exception-raising code returns `Except` values.
Each definition mirrors one Python function, named after it where possible.
String manipulation is embedded through structural helpers on the underlying
character lists so that every definition evaluates inside the kernel.
-/

namespace SLMM

/-- Whitespace characters stripped by Python's `str.strip()` (ASCII range). -/
def wsChar (c : Char) : Bool :=
  c == ' ' || c == '\t' || c == '\n' || c == '\r' || c == '\x0b' || c == '\x0c'

/-- Strip leading and trailing whitespace from a character list. -/
def trimChars (l : List Char) : List Char :=
  ((l.dropWhile wsChar).reverse.dropWhile wsChar).reverse

/-- Python `str.strip()`. -/
def pyStrip (s : String) : String := String.mk (trimChars s.data)

/-- Split a character list at commas (Python `str.split(",")`). -/
def splitCommaChars : List Char → List Char → List (List Char)
  | [], acc => [acc.reverse]
  | c :: cs, acc =>
    if c = ',' then acc.reverse :: splitCommaChars cs []
    else splitCommaChars cs (c :: acc)

/-- Python `resp.split(",")` as a list of strings. -/
def pySplitComma (s : String) : List String :=
  (splitCommaChars s.data []).map String.mk

/-- Does the string start with `$` (Python `str.startswith("$")`)? -/
def startsDollar (s : String) : Bool :=
  match s.data with
  | '$' :: _ => true
  | _ => false

/-- Python `s[1:]`: drop the first character. -/
def pyDropFirst (s : String) : String := String.mk s.data.tail

/-- Does the string end with `?` (Python `str.endswith("?")`)? -/
def endsQuestion (s : String) : Bool := s.data.getLast? = some '?'

/-- Error taxonomy of the gateway (spec section 7).  The Python source raises
`ValueError`/`ConnectionError`/`TimeoutError`/`Exception` with distinguishing
messages; the spec re-expresses those raise sites as this closed set of kinds,
and each constructor below corresponds to exactly one family of raise sites. -/
inductive NLError where
  | connectError
  | timeoutError
  | commandError
  | parameterError
  | specError
  | stateError
  | protocolError (code : String)
  | parseError (msg : String)
  deriving Repr, DecidableEq

/-- Ephemeral snapshot parsed from one DOD/DRD payload
(`NL43Snapshot` dataclass in `services.py`). -/
structure NL43Snapshot where
  measurement_state : String := "unknown"
  counter : Option String := none
  lp : Option String := none
  leq : Option String := none
  lmax : Option String := none
  lmin : Option String := none
  lpeak : Option String := none
  battery_level : Option String := none
  power_source : Option String := none
  sd_remaining_mb : Option String := none
  sd_free_ratio : Option String := none
  raw_payload : Option String := none
  deriving Repr, DecidableEq

/-- Durable per-device status row (`NL43Status` in `models.py`, plus the
`start_time_sync_attempted` column added by
`migrate_add_start_time_sync_flag.py`).  Timestamps are seconds of UTC time;
field defaults are the column defaults of the schema. -/
structure NL43Status where
  last_seen : Option Nat := none
  measurement_state : String := "unknown"
  measurement_start_time : Option Nat := none
  counter : Option String := none
  lp : Option String := none
  leq : Option String := none
  lmax : Option String := none
  lmin : Option String := none
  lpeak : Option String := none
  battery_level : Option String := none
  power_source : Option String := none
  sd_remaining_mb : Option String := none
  sd_free_ratio : Option String := none
  raw_payload : Option String := none
  is_reachable : Bool := true
  consecutive_failures : Nat := 0
  last_poll_attempt : Option Nat := none
  last_success : Option Nat := none
  last_error : Option String := none
  start_time_sync_attempted : Bool := false
  deriving Repr, DecidableEq

/-- Snapshot merge (`persist_snapshot` in `services.py`): stamps `last_seen`,
detects the measurement-state transition to maintain `measurement_start_time`,
and overwrites all scalar fields from the snapshot.  `now` is the UTC time at
which the merge runs (`datetime.utcnow()`). -/
def persist_snapshot (now : Nat) (row : NL43Status) (s : NL43Snapshot) : NL43Status :=
  let row := { row with last_seen := some now }
  let was_measuring := row.measurement_state = "Start"
  let is_measuring := s.measurement_state = "Start"
  let row :=
    if ¬was_measuring ∧ is_measuring then
      { row with measurement_start_time := some now }
    else if was_measuring ∧ ¬is_measuring then
      { row with measurement_start_time := none }
    else row
  { row with
      measurement_state := s.measurement_state
      counter := s.counter
      lp := s.lp
      leq := s.leq
      lmax := s.lmax
      lmin := s.lmin
      lpeak := s.lpeak
      battery_level := s.battery_level
      power_source := s.power_source
      sd_remaining_mb := s.sd_remaining_mb
      sd_free_ratio := s.sd_free_ratio
      raw_payload := s.raw_payload }

/-- The background poller's sync-flag reset (`background_poller.py` lines
232-237): after a successful poll, if the stored state is not "Start" and the
flag is set, clear `start_time_sync_attempted`. -/
def poller_reset_sync_flag (st : NL43Status) : NL43Status :=
  if st.measurement_state ≠ "Start" ∧ st.start_time_sync_attempted then
    { st with start_time_sync_attempted := false }
  else st

/-- Strip a leading `$` prompt and surrounding whitespace from a response line
(`services.py` lines 296-300 and analogous sites). -/
def stripPrompt (line : String) : String :=
  let r := pyStrip line
  if startsDollar r then pyStrip (pyDropFirst r) else r

/-- Response handling of a single command exchange
(`NL43Client._send_command_unlocked`, `services.py` lines 294-325): the first
line carries the result code; `R+0000` succeeds (query commands read and
return a second data line, setters return the code), the four known error
codes map to their error kinds, anything else is a protocol error.  `lines`
is the sequence of lines the device sends; a missing expected line is the
read timeout. -/
def handleResponse (cmd : String) (lines : List String) : Except NLError String :=
  match lines with
  | [] => .error .timeoutError
  | first :: rest =>
    let result_code := stripPrompt first
    if result_code = "R+0000" then
      if endsQuestion (pyStrip cmd) then
        match rest with
        | [] => .error .timeoutError
        | data :: _ => .ok (pyStrip data)
      else .ok result_code
    else if result_code = "R+0001" then .error .commandError
    else if result_code = "R+0002" then .error .parameterError
    else if result_code = "R+0003" then .error .specError
    else if result_code = "R+0004" then .error .stateError
    else .error (.protocolError result_code)

/-- Field extraction shared by DOD and DRD parsing (`services.py` lines 355
and 626): split on commas, strip every piece, drop pieces that strip to
empty. -/
def splitFields (resp : String) : List String :=
  ((pySplitComma resp).map pyStrip).filter (fun p => p ≠ "")

/-- Fill the positional scalars of a snapshot from the parsed field list
(`services.py` lines 375-388 / 636-649): index 0 = counter, 1 = lp, 2 = leq,
3 = lmax, 4 = lmin, 5 = lpeak; absent positions stay `none`. -/
def fillScalars (s : NL43Snapshot) (parts : List String) : NL43Snapshot :=
  { s with
      counter := parts[0]?
      lp := parts[1]?
      leq := parts[2]?
      lmax := parts[3]?
      lmin := parts[4]?
      lpeak := parts[5]? }

/-- DOD payload parsing (`NL43Client.request_dod`, `services.py` lines
346-392), applied to the data line returned by `DOD?`.  `measurement_state`
is the separately-queried state (see `dodMeasurementState`).  Empty data and
fewer than two fields raise; otherwise the positional scalars are filled. -/
def request_dod_parse (resp : String) (measurement_state : String) :
    Except NLError NL43Snapshot :=
  if resp = "" then
    .error (.parseError "Device returned empty data for DOD? command")
  else
    let resp := if startsDollar resp then pyStrip (pyDropFirst resp) else resp
    let parts := splitFields resp
    if parts.length < 2 then
      .error (.parseError "Malformed DOD data")
    else
      .ok (fillScalars
        { measurement_state := measurement_state, raw_payload := some resp } parts)

/-- The measurement state recorded on a DOD snapshot (`services.py` lines
364-369): the trimmed reply to `Measure?`, or the literal `"Measure"` when
that query fails. -/
def dodMeasurementState (measureReply : Option String) : String :=
  match measureReply with
  | some r => pyStrip r
  | none => "Measure"

/-- Outcome of handling one line of a DRD stream: either the line is skipped
(empty or malformed) or it yields a snapshot for the callback. -/
inductive DrdLineResult where
  | skip
  | snap (s : NL43Snapshot)
  deriving Repr, DecidableEq

/-- Per-line handling inside `NL43Client.stream_drd` (`services.py` lines
615-654): blank lines and lines with fewer than two fields are skipped (the
loop logs and continues, raising nothing); well-formed lines become snapshots
whose `measurement_state` is the literal `"Measure"`. -/
def stream_drd_line (line : String) : DrdLineResult :=
  if line = "" then .skip
  else
    let line := if startsDollar line then pyStrip (pyDropFirst line) else line
    let parts := splitFields line
    if parts.length < 2 then .skip
    else .snap (fillScalars
      { measurement_state := "Measure", raw_payload := some line } parts)

instance {ε α : Type} [DecidableEq ε] [DecidableEq α] : DecidableEq (Except ε α) :=
  fun a b =>
    match a, b with
    | .ok x, .ok y => if h : x = y then .isTrue (by rw [h]) else .isFalse (by simp [h])
    | .error x, .error y => if h : x = y then .isTrue (by rw [h]) else .isFalse (by simp [h])
    | .ok _, .error _ => .isFalse (by simp)
    | .error _, .ok _ => .isFalse (by simp)

/-- Claim C1, counterexample.  A merge of a "Stop" snapshot onto a row whose
prior state is "Start" clears `measurement_start_time` but leaves
`start_time_sync_attempted` at `true`: the flag reset is NOT part of the merge
operation, contradicting the claim that both effects occur within the same
merge. -/
theorem C1_counterexample :
    (persist_snapshot 10
        { measurement_state := "Start", measurement_start_time := some 5,
          start_time_sync_attempted := true }
        { measurement_state := "Stop" }).measurement_start_time = none ∧
    (persist_snapshot 10
        { measurement_state := "Start", measurement_start_time := some 5,
          start_time_sync_attempted := true }
        { measurement_state := "Stop" }).start_time_sync_attempted = true := by
  constructor <;> rfl

/-- Claim C1, amended.  The merge (`persist_snapshot`) stamps
`measurement_start_time := now` on a transition into "Start" and clears it on
a transition out of "Start", but never touches `start_time_sync_attempted`;
that flag is instead reset to `false` by the background poller, in a separate
write after a successful poll whose stored state is not "Start". -/
theorem C1_merge_transitions (now : Nat) (row : NL43Status) (s : NL43Snapshot) :
    (row.measurement_state ≠ "Start" → s.measurement_state = "Start" →
      (persist_snapshot now row s).measurement_start_time = some now) ∧
    (row.measurement_state = "Start" → s.measurement_state ≠ "Start" →
      (persist_snapshot now row s).measurement_start_time = none ∧
      (persist_snapshot now row s).start_time_sync_attempted =
        row.start_time_sync_attempted) ∧
    (∀ st : NL43Status, st.measurement_state ≠ "Start" →
      (poller_reset_sync_flag st).start_time_sync_attempted = false) := by
  refine ⟨?_, ?_, ?_⟩
  · intro hprev hnext
    simp [persist_snapshot, hprev, hnext]
  · intro hprev hnext
    constructor <;> simp [persist_snapshot, hprev, hnext]
  · intro st hst
    by_cases hf : st.start_time_sync_attempted
    · simp [poller_reset_sync_flag, hst, hf]
    · simp only [Bool.not_eq_true] at hf
      simp [poller_reset_sync_flag, hst, hf]

/-- Claim C1 amended, witness: the Stop→Start transition stamps the clock, the
Start→Stop transition clears it while leaving the sync flag alone, and the
poller's separate reset step clears the flag. -/
theorem C1_merge_transitions_witness :
    ({ measurement_state := "Stop" } : NL43Status).measurement_state ≠ "Start" ∧
    ({ measurement_state := "Start" } : NL43Snapshot).measurement_state = "Start" ∧
    (persist_snapshot 7 { measurement_state := "Stop" }
      { measurement_state := "Start" }).measurement_start_time = some 7 := by
  refine ⟨by decide, rfl, ?_⟩
  exact (C1_merge_transitions 7 { measurement_state := "Stop" }
    { measurement_state := "Start" }).1 (by decide) rfl

/-- Claim C3: the first response line, after stripping an optional leading `$`
prompt, determines the outcome of a single-command call: `R+0000` succeeds
(query commands return the second data line, setters return the code),
`R+0001`..`R+0004` map to the command/parameter/spec/state error kinds, and
any other result code is a protocol error. -/
theorem C3_result_code_dispatch (cmd first : String) (rest : List String) :
    (stripPrompt first = "R+0000" → endsQuestion (pyStrip cmd) = true →
      handleResponse cmd (first :: rest) =
        match rest with
        | [] => .error .timeoutError
        | data :: _ => .ok (pyStrip data)) ∧
    (stripPrompt first = "R+0000" → endsQuestion (pyStrip cmd) = false →
      handleResponse cmd (first :: rest) = .ok "R+0000") ∧
    (stripPrompt first = "R+0001" →
      handleResponse cmd (first :: rest) = .error .commandError) ∧
    (stripPrompt first = "R+0002" →
      handleResponse cmd (first :: rest) = .error .parameterError) ∧
    (stripPrompt first = "R+0003" →
      handleResponse cmd (first :: rest) = .error .specError) ∧
    (stripPrompt first = "R+0004" →
      handleResponse cmd (first :: rest) = .error .stateError) ∧
    (stripPrompt first ∉ ["R+0000", "R+0001", "R+0002", "R+0003", "R+0004"] →
      handleResponse cmd (first :: rest) =
        .error (.protocolError (stripPrompt first))) := by
  refine ⟨?_, ?_, ?_, ?_, ?_, ?_, ?_⟩
  · intro h hq
    simp [handleResponse, h, hq]
  · intro h hq
    simp [handleResponse, h, hq]
  · intro h; simp [handleResponse, h]
  · intro h; simp [handleResponse, h]
  · intro h; simp [handleResponse, h]
  · intro h; simp [handleResponse, h]
  · intro h
    simp only [List.mem_cons, List.mem_singleton, not_or] at h
    obtain ⟨h0, h1, h2, h3, h4, -⟩ := h
    simp [handleResponse, h0, h1, h2, h3, h4]

/-- Claim C3, witness: a `$`-prefixed success code on a query returns the data
line; `$R+0001` on the same query is a command error. -/
theorem C3_result_code_dispatch_witness :
    stripPrompt "$R+0000" = "R+0000" ∧
    endsQuestion (pyStrip "DOD?\r\n") = true ∧
    handleResponse "DOD?\r\n" ["$R+0000", " 1,70.1 "] = .ok "1,70.1" ∧
    stripPrompt "$R+0001" = "R+0001" ∧
    handleResponse "Measure?\r\n" ["$R+0001"] = .error .commandError := by
  refine ⟨by decide, by decide, ?_, by decide, ?_⟩
  · exact ((C3_result_code_dispatch "DOD?\r\n" "$R+0000" [" 1,70.1 "]).1
      (by decide) (by decide)).trans (by decide)
  · exact (C3_result_code_dispatch "Measure?\r\n" "$R+0001" []).2.2.1 (by decide)

/-- Claim C4, counterexample.  A single-field DRD line does not raise a
`ParseError`: the stream loop skips it and continues.  Moreover the parser
drops fields that strip to empty, so on the payload `"1,,2"` the raw-split
position 2 (the value `"2"`) is assigned to `lp`, not `leq` as positional
assignment over the comma-split would demand. -/
theorem C4_counterexample :
    stream_drd_line "73.5" = DrdLineResult.skip ∧
    (request_dod_parse "1,,2" "Stop").toOption.map NL43Snapshot.lp =
      some (some "2") ∧
    (request_dod_parse "1,,2" "Stop").toOption.map NL43Snapshot.leq =
      some none := by
  refine ⟨by decide, by decide, by decide⟩

/-- Claim C4, amended.  Both parsers split on commas, strip whitespace from
every piece and drop pieces that strip to empty; positions into the resulting
field list are 0 = counter, 1 = lp, 2 = leq, 3 = lmax, 4 = lmin, 5 = lpeak,
with absent positions left unset.  A DOD payload with fewer than two such
fields (in particular an empty or single-field payload) raises a `ParseError`;
a DRD line with fewer than two fields is skipped without error. -/
theorem C4_payload_parsing (resp st : String) (h0 : resp ≠ "")
    (hd : startsDollar resp = false) :
    ((splitFields resp).length < 2 →
      request_dod_parse resp st = .error (.parseError "Malformed DOD data") ∧
      stream_drd_line resp = .skip) ∧
    (2 ≤ (splitFields resp).length →
      request_dod_parse resp st =
        .ok (fillScalars
          { measurement_state := st, raw_payload := some resp }
          (splitFields resp)) ∧
      stream_drd_line resp =
        .snap (fillScalars
          { measurement_state := "Measure", raw_payload := some resp }
          (splitFields resp))) := by
  constructor
  · intro hlt
    constructor
    · simp [request_dod_parse, h0, hd, hlt]
    · simp [stream_drd_line, h0, hd, hlt]
  · intro hge
    have hlt : ¬(splitFields resp).length < 2 := by omega
    constructor
    · simp [request_dod_parse, h0, hd, hlt]
    · simp [stream_drd_line, h0, hd, hlt]

/-- Claim C4 amended, witness: a five-field payload fills counter..lmin and
leaves lpeak absent; a one-field payload is a DOD parse error and a skipped
DRD line. -/
theorem C4_payload_parsing_witness :
    ((("73.5" : String) ≠ "") ∧ startsDollar "73.5" = false ∧
      (splitFields "73.5").length < 2 ∧
      request_dod_parse "73.5" "Stop" =
        .error (.parseError "Malformed DOD data") ∧
      stream_drd_line "73.5" = .skip) ∧
    ((("1,70,71,75,60" : String) ≠ "") ∧ startsDollar "1,70,71,75,60" = false ∧
      2 ≤ (splitFields "1,70,71,75,60").length ∧
      request_dod_parse "1,70,71,75,60" "Stop" =
        .ok (fillScalars
          { measurement_state := "Stop", raw_payload := some "1,70,71,75,60" }
          (splitFields "1,70,71,75,60"))) := by
  refine ⟨⟨by decide, by decide, by decide, ?_, ?_⟩,
    ⟨by decide, by decide, by decide, ?_⟩⟩
  · exact ((C4_payload_parsing "73.5" "Stop" (by decide) (by decide)).1
      (by decide)).1
  · exact ((C4_payload_parsing "73.5" "Stop" (by decide) (by decide)).1
      (by decide)).2
  · exact ((C4_payload_parsing "1,70,71,75,60" "Stop" (by decide) (by decide)).2
      (by decide)).1

/-- Claim C9, counterexample.  A snapshot produced by the DRD stream carries
`measurement_state = "Measure"`, and merging it stores `"Measure"` into the
status row: the stored state is not restricted to Start/Stop/unknown. -/
theorem C9_counterexample :
    stream_drd_line "1,70.0" =
      .snap (fillScalars
        { measurement_state := "Measure", raw_payload := some "1,70.0" }
        ["1", "70.0"]) ∧
    ¬((persist_snapshot 100 {}
        (fillScalars
          { measurement_state := "Measure", raw_payload := some "1,70.0" }
          ["1", "70.0"])).measurement_state = "Start" ∨
      (persist_snapshot 100 {}
        (fillScalars
          { measurement_state := "Measure", raw_payload := some "1,70.0" }
          ["1", "70.0"])).measurement_state = "Stop" ∨
      (persist_snapshot 100 {}
        (fillScalars
          { measurement_state := "Measure", raw_payload := some "1,70.0" }
          ["1", "70.0"])).measurement_state = "unknown") := by
  refine ⟨by decide, by decide⟩

/-- Claim C9, amended.  The merge stores the snapshot's `measurement_state`
verbatim; DOD snapshots carry the trimmed reply to `Measure?` (an arbitrary
device string) or the literal `"Measure"` when that query fails, and DRD
snapshots always carry `"Measure"`.  The stored value is therefore not
confined to Start/Stop/unknown. -/
theorem C9_measurement_state_values (now : Nat) (row : NL43Status)
    (s : NL43Snapshot) :
    (persist_snapshot now row s).measurement_state = s.measurement_state ∧
    (∀ r : String, dodMeasurementState (some r) = pyStrip r) ∧
    dodMeasurementState none = "Measure" ∧
    (∀ line : String, ∀ s' : NL43Snapshot, stream_drd_line line = .snap s' →
      s'.measurement_state = "Measure") := by
  refine ⟨rfl, fun _ => rfl, rfl, ?_⟩
  intro line s' h
  by_cases h0 : line = ""
  · simp [stream_drd_line, h0] at h
  · by_cases hd : startsDollar line
    · by_cases hl : (splitFields (pyStrip (pyDropFirst line))).length < 2
      · simp [stream_drd_line, h0, hd, hl] at h
      · simp [stream_drd_line, h0, hd, hl] at h
        subst h
        rfl
    · by_cases hl : (splitFields line).length < 2
      · simp [stream_drd_line, h0, hd, hl] at h
      · simp [stream_drd_line, h0, hd, hl] at h
        subst h
        rfl

/-- Claim C9 amended, witness: merging the DRD snapshot of the line
`"1,70.0"` stores `"Measure"`. -/
theorem C9_measurement_state_values_witness :
    stream_drd_line "1,70.0" =
      .snap (fillScalars
        { measurement_state := "Measure", raw_payload := some "1,70.0" }
        ["1", "70.0"]) ∧
    (fillScalars
      { measurement_state := "Measure", raw_payload := some "1,70.0" }
      ["1", "70.0"]).measurement_state = "Measure" := by
  refine ⟨by decide, ?_⟩
  exact (C9_measurement_state_values 100 {}
    (fillScalars { measurement_state := "Measure", raw_payload := some "1,70.0" }
      ["1", "70.0"])).2.2.2 "1,70.0" _ (by decide)

/-- UTF-8 byte length of one character (RFC 3629). -/
def charUtf8Bytes (c : Char) : Nat :=
  if c.val < 0x80 then 1
  else if c.val < 0x800 then 2
  else if c.val < 0x10000 then 3
  else 4

/-- UTF-8 byte length of a string. -/
def utf8Len (s : String) : Nat := (s.data.map charUtf8Bytes).sum

/-- Python `str(e)[:500]` (`background_poller.py` line 287): the first 500
characters (code points), NOT bytes. -/
def truncate500 (s : String) : String := String.mk (s.data.take 500)

/-- Successful-poll bookkeeping (`background_poller.py` lines 211-214):
reachable, failure counter reset, success stamped, error cleared. -/
def poll_success (st : NL43Status) (now : Nat) : NL43Status :=
  { st with is_reachable := true, consecutive_failures := 0,
            last_success := some now, last_error := none }

/-- Failed-poll bookkeeping (`background_poller.py` lines 284-304): increment
the failure counter, record the truncated error, and mark unreachable once the
counter has reached 3. -/
def poll_failure (st : NL43Status) (msg : String) : NL43Status :=
  if 3 ≤ st.consecutive_failures + 1 then
    { st with consecutive_failures := st.consecutive_failures + 1,
              last_error := some (truncate500 msg), is_reachable := false }
  else
    { st with consecutive_failures := st.consecutive_failures + 1,
              last_error := some (truncate500 msg) }

/-- A run of consecutive failed polls. -/
def poll_failures (st : NL43Status) : List String → NL43Status
  | [] => st
  | m :: ms => poll_failures (poll_failure st m) ms

theorem poll_failure_failures (st : NL43Status) (m : String) :
    (poll_failure st m).consecutive_failures = st.consecutive_failures + 1 := by
  unfold poll_failure
  split <;> rfl

theorem poll_failures_unreachable (ms : List String) :
    ∀ st : NL43Status, ms ≠ [] →
      3 ≤ st.consecutive_failures + ms.length →
      (poll_failures st ms).is_reachable = false := by
  induction ms with
  | nil => intro st h; exact absurd rfl h
  | cons m ms ih =>
    intro st _ hcnt
    match ms, ih with
    | [], _ =>
      have h3 : 3 ≤ st.consecutive_failures + 1 := by
        simpa using hcnt
      show (poll_failure st m).is_reachable = false
      unfold poll_failure
      rw [if_pos h3]
    | m2 :: ms2, ih =>
      show (poll_failures (poll_failure st m) (m2 :: ms2)).is_reachable = false
      refine ih (poll_failure st m) (by simp) ?_
      rw [poll_failure_failures]
      simp only [List.length_cons] at hcnt ⊢
      omega

set_option maxRecDepth 8192 in
/-- Claim C5, counterexample.  The failure path truncates the error message to
500 characters, not 500 bytes: a 251-character message of two-byte characters
is stored whole, and the stored value is 502 UTF-8 bytes long. -/
theorem C5_counterexample :
    (poll_failure {} (String.mk (List.replicate 251 'é'))).last_error =
      some (String.mk (List.replicate 251 'é')) ∧
    500 < utf8Len (String.mk (List.replicate 251 'é')) := by
  exact ⟨by decide, by decide⟩

/-- Claim C5, amended.  A successful poll sets `is_reachable := true`,
`consecutive_failures := 0`, `last_success := now` and clears `last_error`; a
failed poll increments `consecutive_failures` and records `last_error`
truncated to 500 characters (code points, not bytes); the failure path sets
`is_reachable := false` exactly when the incremented counter has reached 3
(leaving it unchanged below 3), so after N ≥ 3 consecutive failures
`is_reachable = false`, and after the next success it is `true` with
`consecutive_failures = 0`. -/
theorem C5_reachability (st : NL43Status) (now : Nat) (msg : String) :
    ((poll_success st now).is_reachable = true ∧
     (poll_success st now).consecutive_failures = 0 ∧
     (poll_success st now).last_success = some now ∧
     (poll_success st now).last_error = none) ∧
    ((poll_failure st msg).consecutive_failures = st.consecutive_failures + 1 ∧
     (poll_failure st msg).last_error = some (truncate500 msg) ∧
     (poll_failure st msg).is_reachable =
       (if 3 ≤ st.consecutive_failures + 1 then false else st.is_reachable)) ∧
    (∀ ms : List String, 3 ≤ ms.length →
      (poll_failures st ms).is_reachable = false ∧
      (poll_success (poll_failures st ms) now).is_reachable = true ∧
      (poll_success (poll_failures st ms) now).consecutive_failures = 0) := by
  refine ⟨⟨rfl, rfl, rfl, rfl⟩, ⟨poll_failure_failures st msg, ?_, ?_⟩, ?_⟩
  · unfold poll_failure
    split <;> rfl
  · unfold poll_failure
    split <;> rfl
  · intro ms hlen
    have hne : ms ≠ [] := by
      intro h; rw [h] at hlen; simp at hlen
    have := poll_failures_unreachable ms st hne (by omega)
    exact ⟨this, rfl, rfl⟩

/-- Claim C5 amended, witness: three consecutive failures starting from the
default row leave the device unreachable; the next success restores it. -/
theorem C5_reachability_witness :
    3 ≤ (["a", "b", "c"] : List String).length ∧
    (poll_failures {} ["a", "b", "c"]).is_reachable = false ∧
    (poll_success (poll_failures {} ["a", "b", "c"]) 50).is_reachable = true ∧
    (poll_success (poll_failures {} ["a", "b", "c"]) 50).consecutive_failures = 0 := by
  have h := (C5_reachability {} 50 "a").2.2 ["a", "b", "c"] (by decide)
  exact ⟨by decide, h.1, h.2.1, h.2.2⟩

/-- The FTP-related configuration consulted by the poller before attempting a
start-time sync (`NL43Config` columns in `models.py`). -/
structure NL43ConfigFtp where
  ftp_enabled : Bool := false
  ftp_username : Option String := none
  ftp_password : Option String := none
  deriving Repr, DecidableEq

/-- Python truthiness of an optional string (`None` and `""` are falsy). -/
def truthy : Option String → Bool
  | none => false
  | some s => s ≠ ""

/-- Precondition for attempting FTP start-time sync
(`background_poller.py` lines 244-250): measuring, no recorded start time,
sync not yet attempted, FTP enabled with credentials. -/
def sync_precondition (st : NL43Status) (cfg : NL43ConfigFtp) : Bool :=
  decide (st.measurement_state = "Start") &&
  st.measurement_start_time.isNone &&
  !st.start_time_sync_attempted &&
  cfg.ftp_enabled && truthy cfg.ftp_username && truthy cfg.ftp_password

/-- One device-log entry (`log_device_event` in `device_logger.py`). -/
structure LogEv where
  level : String
  category : String
  message : String
  deriving Repr, DecidableEq

/-- Observable outcome of one invocation of
`sync_measurement_start_time_from_ftp`: it returns `True` with a recovered
start time, returns `False`, or raises (every internal exception of the sync
routine itself is caught and returned as `False`; `raised` models an
exception out of the awaited call, which the poller's own handler catches). -/
inductive SyncOutcome where
  | succeeded (startTime : Nat)
  | returnedFalse
  | raised (msg : String)
  deriving Repr, DecidableEq

/-- The start-time-sync section of a successful poll iteration
(`background_poller.py` lines 239-282 with `services.py` lines 196-216): when
the precondition holds the flag is set to `true` before the attempt, a
successful sync stores the recovered start time, and every failing outcome is
logged to the device log; the function is total over all outcomes — no
exception propagates to the poll loop. -/
def poll_sync_phase (st : NL43Status) (cfg : NL43ConfigFtp) (out : SyncOutcome) :
    NL43Status × List LogEv :=
  if sync_precondition st cfg then
    let st := { st with start_time_sync_attempted := true }
    match out with
    | .succeeded t =>
      ({ st with measurement_start_time := some t },
       [⟨"INFO", "SYNC", "Attempting FTP sync for measurement start time"⟩,
        ⟨"INFO", "SYNC", "FTP sync succeeded - measurement start time updated"⟩])
    | .returnedFalse =>
      (st, [⟨"INFO", "SYNC", "Attempting FTP sync for measurement start time"⟩,
            ⟨"WARNING", "SYNC", "FTP sync returned False"⟩])
    | .raised m =>
      (st, [⟨"INFO", "SYNC", "Attempting FTP sync for measurement start time"⟩,
            ⟨"ERROR", "SYNC", "FTP sync failed: " ++ m⟩])
  else (st, [])

/-- Claim C7, counterexample.  A sync attempt that raises leaves `last_error`
untouched (here `none`, as the successful poll just cleared it): the failure
is NOT recorded in the device's `last_error` field — it goes to the device
event log instead. -/
theorem C7_counterexample :
    sync_precondition { measurement_state := "Start" }
      { ftp_enabled := true, ftp_username := some "USER",
        ftp_password := some "0000" } = true ∧
    (poll_sync_phase { measurement_state := "Start" }
      { ftp_enabled := true, ftp_username := some "USER",
        ftp_password := some "0000" } (.raised "ftp down")).1.last_error = none ∧
    (poll_sync_phase { measurement_state := "Start" }
      { ftp_enabled := true, ftp_username := some "USER",
        ftp_password := some "0000" } (.raised "ftp down")).2 =
      [⟨"INFO", "SYNC", "Attempting FTP sync for measurement start time"⟩,
       ⟨"ERROR", "SYNC", "FTP sync failed: ftp down"⟩] := by
  exact ⟨by decide, by decide, by decide⟩

/-- Claim C7, amended.  When the start-time synchronizer runs and fails (the
sync call returns `False` or raises), the failure is recorded in the device
event log with category SYNC, `start_time_sync_attempted` stays `true`,
`last_error` and `measurement_start_time` are left unchanged, and no exception
propagates out of the poll-loop iteration (the phase is total over all
outcomes, including `raised`). -/
theorem C7_sync_failure_handling (st : NL43Status) (cfg : NL43ConfigFtp)
    (out : SyncOutcome) (hpre : sync_precondition st cfg = true)
    (hfail : out = .returnedFalse ∨ ∃ m, out = .raised m) :
    (poll_sync_phase st cfg out).1.last_error = st.last_error ∧
    (poll_sync_phase st cfg out).1.start_time_sync_attempted = true ∧
    (poll_sync_phase st cfg out).1.measurement_start_time =
      st.measurement_start_time ∧
    ∃ e ∈ (poll_sync_phase st cfg out).2,
      e.category = "SYNC" ∧ (e.level = "WARNING" ∨ e.level = "ERROR") := by
  rcases hfail with rfl | ⟨m, rfl⟩
  · refine ⟨?_, ?_, ?_, ?_⟩ <;>
      simp [poll_sync_phase, hpre]
  · refine ⟨?_, ?_, ?_, ?_⟩ <;>
      simp [poll_sync_phase, hpre]

/-- Claim C7 amended, witness: a raising sync on a measuring device with FTP
credentials leaves `last_error` unchanged and logs a SYNC error event. -/
theorem C7_sync_failure_handling_witness :
    sync_precondition { measurement_state := "Start" }
      { ftp_enabled := true, ftp_username := some "USER",
        ftp_password := some "0000" } = true ∧
    ((poll_sync_phase { measurement_state := "Start" }
        { ftp_enabled := true, ftp_username := some "USER",
          ftp_password := some "0000" } (.raised "boom")).1.last_error =
      ({ measurement_state := "Start" } : NL43Status).last_error ∧
     (poll_sync_phase { measurement_state := "Start" }
        { ftp_enabled := true, ftp_username := some "USER",
          ftp_password := some "0000" } (.raised "boom")).1.start_time_sync_attempted = true) := by
  have h := C7_sync_failure_handling { measurement_state := "Start" }
    { ftp_enabled := true, ftp_username := some "USER",
      ftp_password := some "0000" } (.raised "boom") (by decide)
    (Or.inr ⟨"boom", rfl⟩)
  exact ⟨by decide, h.1, h.2.1⟩

/-- The rate governor (`NL43Client._enforce_rate_limit`, `services.py` lines
247-256), idealized over exact sleeps on a global clock of rational seconds:
given the recorded time of the last command (`_last_command_time`, default 0)
and the instant the check runs, it returns the instant the check completes,
which is also the newly recorded last-command time (`time.time()` taken right
after the optional sleep). -/
def enforce_rate_limit (last now : ℚ) : ℚ :=
  if now - last < 1 then now + (1 - (now - last)) else now

/-- One command exchange through `_send_command_unlocked` as seen on the
clock: the rate-limit check starts at `enter`, completes (and records) at
`enforce_rate_limit last enter`, the TCP connect takes `connectDur`, the
command bytes go on the wire right after the connect, and the response is
read in `readDur`.  Returns (recorded time, wire time, completion time). -/
def send_command_timing (last enter connectDur readDur : ℚ) : ℚ × ℚ × ℚ :=
  let recorded := enforce_rate_limit last enter
  (recorded, recorded + connectDur, recorded + connectDur + readDur)

/-- Claim C2, counterexample.  Two serialized commands to the same unit: the
first enters the governor at time 0 with no prior record, its connect takes
2 s, so its bytes hit the wire at t = 3; the second command enters immediately
after (t = 3), sees 2 s elapsed since the recorded time 1, waits nothing, and
with an instant connect its bytes hit the wire at t = 3 — zero seconds after
the first command's bytes, not ≥ 1.0 s. -/
theorem C2_counterexample :
    (send_command_timing 0 0 2 0).1 = 1 ∧
    (send_command_timing 0 0 2 0).2.1 = 3 ∧
    (send_command_timing (send_command_timing 0 0 2 0).1
      (send_command_timing 0 0 2 0).2.2 0 0).2.1 = 3 ∧
    ¬((1 : ℚ) ≤ (send_command_timing (send_command_timing 0 0 2 0).1
        (send_command_timing 0 0 2 0).2.2 0 0).2.1 -
      (send_command_timing 0 0 2 0).2.1) := by
  refine ⟨by norm_num [send_command_timing, enforce_rate_limit],
    by norm_num [send_command_timing, enforce_rate_limit],
    by norm_num [send_command_timing, enforce_rate_limit],
    by norm_num [send_command_timing, enforce_rate_limit]⟩

/-- Claim C2, amended.  The 1.0 s spacing the governor enforces is between
the RECORDED command times — the instants at which successive commands pass
the rate-limit check, taken before the TCP connect — not between the instants
the bytes are placed on the wire: for any serialized pair of commands the
second recorded time is at least 1.0 s after the first, and the wire-to-wire
spacing equals that spacing shifted by the difference of the two connect
durations (hence it can be below 1.0 s exactly when the first connect
outlasts the second by more than the enforced slack). -/
theorem C2_rate_limit_recorded (last enter₁ c₁ r₁ c₂ : ℚ)
    (hc₁ : 0 ≤ c₁) (hr₁ : 0 ≤ r₁) :
    (1 : ℚ) ≤ (send_command_timing (send_command_timing last enter₁ c₁ r₁).1
        (send_command_timing last enter₁ c₁ r₁).2.2 c₂ 0).1 -
      (send_command_timing last enter₁ c₁ r₁).1 ∧
    (send_command_timing (send_command_timing last enter₁ c₁ r₁).1
        (send_command_timing last enter₁ c₁ r₁).2.2 c₂ 0).2.1 -
      (send_command_timing last enter₁ c₁ r₁).2.1 =
    ((send_command_timing (send_command_timing last enter₁ c₁ r₁).1
        (send_command_timing last enter₁ c₁ r₁).2.2 c₂ 0).1 -
      (send_command_timing last enter₁ c₁ r₁).1) + c₂ - c₁ := by
  constructor
  · unfold send_command_timing enforce_rate_limit
    simp only
    split <;> split <;> (try simp only [not_lt] at *) <;> linarith
  · unfold send_command_timing
    ring

/-- Claim C2 amended, witness: in the counterexample scenario the recorded
times are 1 and 3, which are ≥ 1.0 s apart even though the wire times
coincide. -/
theorem C2_rate_limit_recorded_witness :
    (0 : ℚ) ≤ 2 ∧ (0 : ℚ) ≤ 0 ∧
    (1 : ℚ) ≤ (send_command_timing (send_command_timing 0 0 2 0).1
        (send_command_timing 0 0 2 0).2.2 0 0).1 -
      (send_command_timing 0 0 2 0).1 := by
  exact ⟨by norm_num, le_refl 0,
    (C2_rate_limit_recorded 0 0 2 0 0 (by norm_num) (le_refl 0)).1⟩

/-- Wire events of a start cycle: writing `Store Name,NNNN`, probing
`Overwrite?` at an index (`exist = true` means the reply was not `"None"`),
and sending `Measure,Start`. -/
inductive CycleEv where
  | setIndex (n : Nat)
  | probe (n : Nat) (exist : Bool)
  | measureStart
  deriving Repr, DecidableEq

/-- The two raise sites of the index search in `start_cycle`
(`services.py` lines 1335-1342): the wrap-around detection ("All indices have
data") and exhaustion of `max_attempts` ("Could not find empty index"). -/
inductive CycleErr where
  | storageFull
  | noFreeIndex
  deriving Repr, DecidableEq

/-- The index-search loop of `NL43Client.start_cycle` (`services.py` lines
1313-1342).  `ow n = false` means the `Overwrite?` probe at index `n` returns
`"None"`.  The Python loop guard `attempts < max_attempts` is embedded as
structural fuel `max_attempts - attempts`; `test` and `attempts` carry the
loop variables.  Returns the wire events together with either
`(new_index, attempts_made)` or the raised error. -/
def start_cycle_loop (ow : Nat → Bool) (current : Nat) :
    Nat → Nat → Nat → List CycleEv × Except CycleErr (Nat × Nat)
  | 0, _, _ => ([], .error .noFreeIndex)
  | fuel + 1, test, attempts =>
    if ow (test % 10000) = false then
      ([.setIndex (test % 10000), .probe (test % 10000) false],
       .ok (test % 10000, attempts + 1))
    else if test % 10000 + 1 = current then
      ([.setIndex (test % 10000), .probe (test % 10000) true],
       .error .storageFull)
    else
      (CycleEv.setIndex (test % 10000) :: CycleEv.probe (test % 10000) true ::
        (start_cycle_loop ow current fuel (test % 10000 + 1) (attempts + 1)).1,
       (start_cycle_loop ow current fuel (test % 10000 + 1) (attempts + 1)).2)

/-- `NL43Client.start_cycle` steps 2-3 (`services.py` lines 1306-1348): run
the index search starting at `current + 1` and, on success, send
`Measure,Start` (the optional clock sync of step 1 precedes the search and is
independent of it). -/
def start_cycle (ow : Nat → Bool) (current max_attempts : Nat) :
    List CycleEv × Except CycleErr (Nat × Nat) :=
  ((start_cycle_loop ow current max_attempts (current + 1) 0).1 ++
      (match (start_cycle_loop ow current max_attempts (current + 1) 0).2 with
       | .ok _ => [CycleEv.measureStart]
       | .error _ => []),
   (start_cycle_loop ow current max_attempts (current + 1) 0).2)

theorem start_cycle_loop_ok (ow : Nat → Bool) (current : Nat) :
    ∀ fuel test attempts idx att,
      test % 10000 = (current + attempts + 1) % 10000 →
      (start_cycle_loop ow current fuel test attempts).2 = .ok (idx, att) →
      attempts < att ∧ att ≤ attempts + fuel ∧
      idx = (current + att) % 10000 ∧ ow idx = false ∧
      ∀ j, attempts < j → j < att → ow ((current + j) % 10000) = true := by
  intro fuel
  induction fuel with
  | zero =>
    intro test attempts idx att _ h
    simp [start_cycle_loop] at h
  | succ fuel ih =>
    intro test attempts idx att hinv h
    unfold start_cycle_loop at h
    by_cases h1 : ow (test % 10000) = false
    · rw [if_pos h1] at h
      simp only [Except.ok.injEq, Prod.mk.injEq] at h
      obtain ⟨hidx, hatt⟩ := h
      refine ⟨by omega, by omega, by omega, ?_, ?_⟩
      · rw [← hidx]
        exact h1
      · intro j hj1 hj2
        exfalso
        omega
    · rw [if_neg h1] at h
      by_cases h2 : test % 10000 + 1 = current
      · rw [if_pos h2] at h
        simp at h
      · rw [if_neg h2] at h
        have hinv2 : (test % 10000 + 1) % 10000 =
            (current + (attempts + 1) + 1) % 10000 := by
          omega
        obtain ⟨ha, hb, hc, hd, he⟩ :=
          ih (test % 10000 + 1) (attempts + 1) idx att hinv2 h
        have h1' : ow (test % 10000) = true := by
          revert h1
          cases ow (test % 10000) <;> simp
        refine ⟨by omega, by omega, hc, hd, ?_⟩
        intro j hj1 hj2
        by_cases hje : j = attempts + 1
        · subst hje
          have hx : (current + (attempts + 1)) % 10000 = test % 10000 := by
            omega
          rw [hx]
          exact h1'
        · exact he j (by omega) hj2

theorem start_cycle_loop_no_start (ow : Nat → Bool) (current : Nat) :
    ∀ fuel test attempts,
      CycleEv.measureStart ∉ (start_cycle_loop ow current fuel test attempts).1 := by
  intro fuel
  induction fuel with
  | zero =>
    intro test attempts
    simp [start_cycle_loop]
  | succ fuel ih =>
    intro test attempts
    unfold start_cycle_loop
    by_cases h1 : ow (test % 10000) = false
    · rw [if_pos h1]; simp
    · rw [if_neg h1]
      by_cases h2 : test % 10000 + 1 = current
      · rw [if_pos h2]; simp
      · rw [if_neg h2]
        simp only [List.mem_cons, not_or]
        exact ⟨by simp, by simp, ih (test % 10000 + 1) (attempts + 1)⟩

theorem start_cycle_loop_ok_last (ow : Nat → Bool) (current : Nat) :
    ∀ fuel test attempts idx att,
      (start_cycle_loop ow current fuel test attempts).2 = .ok (idx, att) →
      (start_cycle_loop ow current fuel test attempts).1.getLast? =
        some (.probe idx false) := by
  intro fuel
  induction fuel with
  | zero =>
    intro test attempts idx att h
    simp [start_cycle_loop] at h
  | succ fuel ih =>
    intro test attempts idx att h
    unfold start_cycle_loop at h ⊢
    by_cases h1 : ow (test % 10000) = false
    · rw [if_pos h1] at h ⊢
      simp only [Except.ok.injEq, Prod.mk.injEq] at h
      rw [← h.1]
      rfl
    · rw [if_neg h1] at h ⊢
      by_cases h2 : test % 10000 + 1 = current
      · rw [if_pos h2] at h
        simp at h
      · rw [if_neg h2] at h ⊢
        have := ih (test % 10000 + 1) (attempts + 1) idx att h
        cases hr : (start_cycle_loop ow current fuel
            (test % 10000 + 1) (attempts + 1)).1 with
        | nil => rw [hr] at this; simp at this
        | cons c l =>
          rw [hr] at this
          rw [List.getLast?_cons_cons, List.getLast?_cons_cons]
          exact this

theorem start_cycle_snd (ow : Nat → Bool) (current maxA : Nat) :
    (start_cycle ow current maxA).2 =
      (start_cycle_loop ow current maxA (current + 1) 0).2 := rfl

theorem start_cycle_loop_skip_window (ow : Nat → Bool) :
    ∀ fuel test attempts rest,
      test + fuel ≤ 10000 → 0 < test →
      (∀ i, test ≤ i → i < test + fuel → ow i = true) →
      (start_cycle_loop ow 0 (fuel + rest) test attempts).2 =
        (start_cycle_loop ow 0 rest (test + fuel) (attempts + fuel)).2 := by
  intro fuel
  induction fuel with
  | zero =>
    intro test attempts rest _ _ _
    rw [Nat.zero_add, Nat.add_zero, Nat.add_zero]
  | succ fuel ih =>
    intro test attempts rest hle hpos hwin
    have hfe : fuel + 1 + rest = (fuel + rest) + 1 := by omega
    rw [hfe]
    have htmod : test % 10000 = test := Nat.mod_eq_of_lt (by omega)
    have howt : ¬(ow (test % 10000) = false) := by
      rw [htmod, hwin test le_rfl (by omega)]
      simp
    have hstep : (start_cycle_loop ow 0 ((fuel + rest) + 1) test attempts).2 =
        (start_cycle_loop ow 0 (fuel + rest) (test % 10000 + 1)
          (attempts + 1)).2 := by
      conv_lhs => rw [start_cycle_loop]
      rw [if_neg howt, if_neg (by omega : ¬(test % 10000 + 1 = 0))]
    rw [hstep, htmod]
    have hrec := ih (test + 1) (attempts + 1) rest (by omega) (by omega)
      (fun i hi1 hi2 => hwin i (by omega) (by omega))
    rw [show test + 1 + fuel = test + (fuel + 1) from by omega,
        show attempts + 1 + fuel = attempts + (fuel + 1) from by omega] at hrec
    exact hrec

/-- Claim C6, counterexample.  With current index 0, every other index
occupied and `max_attempts = 10000`, the candidate sequence wraps all the way
back to the current index, yet no `StorageFullError` is raised: the wrap test
compares the incremented candidate before its modulo-10000 reduction
(`test_index + 1 = 10000 ≠ 0`), so index 0 — the current index itself — is
probed as the 10000th candidate and returned as `new_index`. -/
theorem C6_counterexample :
    (start_cycle (fun n => !(n == 0)) 0 10000).2 = .ok (0, 10000) ∧
    (start_cycle (fun n => !(n == 0)) 0 10000).2 ≠
      .error CycleErr.storageFull := by
  have hwin : ∀ i, 1 ≤ i → i < 1 + 9999 → (fun n => !(n == 0)) i = true := by
    intro i h1 _
    cases i with
    | zero => exact absurd h1 (by omega)
    | succ n => rfl
  have hskip := start_cycle_loop_skip_window (fun n => !(n == 0)) 9999 1 0 1
    (by omega) (by omega) hwin
  rw [show (1 + 9999 : Nat) = 10000 by norm_num,
      show (0 + 9999 : Nat) = 9999 by norm_num] at hskip
  have hfinal : (start_cycle_loop (fun n => !(n == 0)) 0 1 10000 9999).2 =
      .ok (0, 10000) := rfl
  have h : (start_cycle (fun n => !(n == 0)) 0 10000).2 = .ok (0, 10000) := by
    rw [start_cycle_snd]
    nth_rewrite 1 [show (10000 : Nat) = 9999 + 1 from by norm_num]
    exact hskip.trans hfinal
  refine ⟨h, ?_⟩
  intro hcontra
  rw [h] at hcontra
  exact absurd hcontra (by simp)

/-- Claim C6, amended.  On a successful start cycle the reported `new_index`
is the first index in the cyclic sequence `(cur+1) % 10000, (cur+2) % 10000,
...` whose `Overwrite?` probe returns `"None"`; `attempts_made` is the number
of candidates probed (at most `max_attempts`); `Measure,Start` is sent only
after that final probe and never on a failed cycle.  The failure raises are:
`StorageFullError` when the incremented candidate (before modulo reduction)
equals `cur` — which detects the full wrap only when `cur ≥ 1` — and a
generic could-not-find-index error when `max_attempts` is exhausted. -/
theorem C6_start_cycle (ow : Nat → Bool) (current maxA : Nat) :
    (∀ idx att, (start_cycle ow current maxA).2 = .ok (idx, att) →
      1 ≤ att ∧ att ≤ maxA ∧ idx = (current + att) % 10000 ∧ ow idx = false ∧
      (∀ j, 1 ≤ j → j < att → ow ((current + j) % 10000) = true) ∧
      ∃ evs, (start_cycle ow current maxA).1 = evs ++ [CycleEv.measureStart] ∧
        evs.getLast? = some (CycleEv.probe idx false) ∧
        CycleEv.measureStart ∉ evs) ∧
    (∀ e, (start_cycle ow current maxA).2 = .error e →
      CycleEv.measureStart ∉ (start_cycle ow current maxA).1) := by
  constructor
  · intro idx att h
    have hloop : (start_cycle_loop ow current maxA (current + 1) 0).2 =
        .ok (idx, att) := h
    obtain ⟨ha, hb, hc, hd, he⟩ :=
      start_cycle_loop_ok ow current maxA (current + 1) 0 idx att rfl hloop
    refine ⟨ha, by omega, hc, hd, fun j hj1 hj2 => he j hj1 hj2, ?_⟩
    refine ⟨(start_cycle_loop ow current maxA (current + 1) 0).1, ?_, ?_, ?_⟩
    · show (start_cycle_loop ow current maxA (current + 1) 0).1 ++
          (match (start_cycle_loop ow current maxA (current + 1) 0).2 with
           | .ok _ => [CycleEv.measureStart]
           | .error _ => []) = _
      rw [hloop]
    · exact start_cycle_loop_ok_last ow current maxA (current + 1) 0 idx att hloop
    · exact start_cycle_loop_no_start ow current maxA (current + 1) 0
  · intro e h
    have hloop : (start_cycle_loop ow current maxA (current + 1) 0).2 =
        .error e := h
    show CycleEv.measureStart ∉
        (start_cycle_loop ow current maxA (current + 1) 0).1 ++
        (match (start_cycle_loop ow current maxA (current + 1) 0).2 with
         | .ok _ => [CycleEv.measureStart]
         | .error _ => [])
    rw [hloop]
    simp only [List.append_nil]
    exact start_cycle_loop_no_start ow current maxA (current + 1) 0

/-- Claim C6 amended, witness (spec scenario 4): current index 7, indices 8
and 9 occupied, 10 free — the cycle reports `new_index = 10` after 3 probes,
and `Measure,Start` is the last event. -/
theorem C6_start_cycle_witness :
    (start_cycle (fun n => n == 8 || n == 9) 7 100).2 = .ok (10, 3) ∧
    (1 ≤ 3 ∧ 3 ≤ 100 ∧ 10 = (7 + 3) % 10000 ∧
      (fun n => n == 8 || n == 9) 10 = false ∧
      (∀ j, 1 ≤ j → j < 3 →
        (fun n : Nat => n == 8 || n == 9) ((7 + j) % 10000) = true) ∧
      ∃ evs, (start_cycle (fun n => n == 8 || n == 9) 7 100).1 =
          evs ++ [CycleEv.measureStart] ∧
        evs.getLast? = some (CycleEv.probe 10 false) ∧
        CycleEv.measureStart ∉ evs) :=
  ⟨rfl, (C6_start_cycle (fun n => n == 8 || n == 9) 7 100).1 10 3 rfl⟩

/-- A civil (proleptic Gregorian) datetime with seconds precision, standing
for Python's naive `datetime` (whose sub-second part plays no role in the
timestamp logic modelled here). -/
structure DT where
  year : Nat
  month : Nat
  day : Nat
  hour : Nat
  minute : Nat
  second : Nat
  deriving Repr, DecidableEq

/-- Day count of a civil date from 0000-03-01 (Gregorian; valid for years
≥ 1, which covers every datetime the gateway handles). -/
def daysFromCivil (y m d : Nat) : Nat :=
  let y' := if m ≤ 2 then y - 1 else y
  let era := y' / 400
  let yoe := y' % 400
  let mp := (m + 9) % 12
  let doy := (153 * mp + 2) / 5 + d - 1
  let doe := yoe * 365 + yoe / 4 - yoe / 100 + doy
  era * 146097 + doe

/-- Seconds of a civil datetime from the 0000-03-01 epoch.  Python's
comparison and subtraction of naive datetimes agree with comparison and
subtraction of these second counts. -/
def toSec (dt : DT) : Nat :=
  daysFromCivil dt.year dt.month dt.day * 86400 +
    dt.hour * 3600 + dt.minute * 60 + dt.second

/-- Inverse of `daysFromCivil`: (year, month, day) of a day count. -/
def civilFromDays (z : Nat) : Nat × Nat × Nat :=
  let era := z / 146097
  let doe := z % 146097
  let yoe := (doe - doe / 1460 + doe / 36524 - doe / 146096) / 365
  let y := yoe + era * 400
  let doy := doe - (365 * yoe + yoe / 4 - yoe / 100)
  let mp := (5 * doy + 2) / 153
  let d := doy - (153 * mp + 2) / 5 + 1
  let m := if mp < 10 then mp + 3 else mp - 9
  (if m ≤ 2 then y + 1 else y, m, d)

/-- Civil datetime of a second count (inverse of `toSec`). -/
def dtFromSec (t : Nat) : DT :=
  let days := t / 86400
  let rem := t % 86400
  let c := civilFromDays days
  ⟨c.1, c.2.1, c.2.2, rem / 3600, rem % 3600 / 60, rem % 60⟩

/-- The two modified-time shapes in Unix-style FTP LIST output
(`services.py` line 964): `"Jan 07 14:23"` (month, day, hour, minute — no
year) and `"Dec 25 2025"` (month, day, year). -/
inductive FtpTimestamp where
  | hm (month day hour minute : Nat)
  | ymd (month day year : Nat)
  deriving Repr, DecidableEq

/-- Gregorian leap year. -/
def isLeapYear (y : Nat) : Bool :=
  (y % 4 == 0 && y % 100 != 0) || y % 400 == 0

/-- Days in a month of a Gregorian year. -/
def daysInMonth (y m : Nat) : Nat :=
  if m == 2 then (if isLeapYear y then 29 else 28)
  else if m == 4 || m == 6 || m == 9 || m == 11 then 30
  else 31

/-- The date validation `datetime.strptime` performs: month in range and day
within the month of the given year. -/
def validDate (y m d : Nat) : Bool :=
  decide (1 ≤ m) && decide (m ≤ 12) &&
    decide (1 ≤ d) && decide (d ≤ daysInMonth y m)

/-- The time-of-day validation `datetime.strptime` performs. -/
def validTime (h mi : Nat) : Bool := decide (h < 24) && decide (mi < 60)

/-- The current-year heuristic of the `MMM DD HH:MM` branch (`services.py`
lines 969-986), applied once `strptime` has accepted the tokens: the naive
datetime gets `now_local`'s year, is moved back one year when that puts it in
`now_local`'s future, and is converted to UTC by subtracting the offset.
(`dt.replace(year=...)` cannot fail here: a day valid in the non-leap year
1900 is valid in every year.) -/
def ftp_hm_heuristic (nowUtcSec : Nat) (offsetSec : Int)
    (m d h mi : Nat) : Int :=
  let nowLocal := dtFromSec (Int.toNat (nowUtcSec + offsetSec))
  let dt : DT := ⟨nowLocal.year, m, d, h, mi, 0⟩
  let dt := if toSec nowLocal < toSec dt then
      { dt with year := dt.year - 1 } else dt
  (toSec dt : Int) - offsetSec

/-- Modified-time parsing of `NL43Client.list_ftp_files` (`services.py`
lines 967-994), applied to the already-tokenized timestamp.  `nowUtcSec` is
`datetime.utcnow()` and `offsetSec` the process-wide `TIMEZONE_OFFSET` in
seconds (default −18000 for UTC−5); `now_local = utcnow() + TIMEZONE_OFFSET`.
The yearless form is parsed by `strptime("%b %d %H:%M")`, which validates the
date against its default year 1900 — NOT a leap year — so an entry such as
`Feb 29 14:23` raises `ValueError`; the `"%b %d %Y"` fallback on the same
three tokens then also fails, and the outer handler (line 993) leaves the
timestamp absent (`none`).  A valid yearless entry gets the current-year
heuristic; a dated entry is validated against its own (leap-aware) year and
converted to UTC with the same offset. -/
def list_ftp_parse_modified (nowUtcSec : Nat) (offsetSec : Int) :
    FtpTimestamp → Option Int
  | .hm m d h mi =>
    if validDate 1900 m d && validTime h mi then
      some (ftp_hm_heuristic nowUtcSec offsetSec m d h mi)
    else none
  | .ymd m d y =>
    if validDate y m d then
      some ((toSec ⟨y, m, d, 0, 0, 0⟩ : Int) - offsetSec)
    else none

/-- The spec's description of the same parsing, written independently from
its words: assign the current year as computed in the configured timezone;
subtract one year if the resulting datetime lies in the future relative to
now in that timezone; convert to UTC by subtracting the process-wide offset;
a dated entry is converted to UTC with the same offset. -/
def spec_ftp_modified (nowUtcSec : Nat) (offsetSec : Int) :
    FtpTimestamp → Int
  | .hm m d h mi =>
    let nowLocal := dtFromSec (Int.toNat (nowUtcSec + offsetSec))
    let naive : DT := ⟨nowLocal.year, m, d, h, mi, 0⟩
    let assigned := if toSec nowLocal < toSec naive then
        (⟨nowLocal.year - 1, m, d, h, mi, 0⟩ : DT) else naive
    (toSec assigned : Int) - offsetSec
  | .ymd m d y => (toSec ⟨y, m, d, 0, 0, 0⟩ : Int) - offsetSec

/-- Claim C8, counterexample.  The claim quantifies over every entry of the
form `MMM DD HH:MM`, but `strptime` validates the yearless form against its
default year 1900, which is not a leap year: the entry `Feb 29 14:23`
(written by a device on February 29 of a leap year) yields NO parsed
timestamp — the program leaves it absent — even though the claim's described
current-year-heuristic value exists (the spec-side description computes
one). -/
theorem C8_counterexample :
    list_ftp_parse_modified (toSec ⟨2025, 3, 10, 17, 0, 0⟩) (-18000)
        (.hm 2 29 14 23) = none ∧
    spec_ftp_modified (toSec ⟨2025, 3, 10, 17, 0, 0⟩) (-18000)
        (.hm 2 29 14 23) =
      (toSec ⟨2025, 2, 29, 14, 23, 0⟩ : Int) - (-18000) := by
  exact ⟨by decide, by decide⟩

/-- Claim C8, amended.  An `MMM DD HH:MM` entry that passes `strptime`'s
validation against the default year 1900 (a non-leap year, so `Feb 29` never
passes) is assigned the current year as computed in the configured timezone,
moved back one year if the resulting datetime lies in the future relative to
now in that timezone, and converted to UTC by subtracting the process-wide
offset; a yearless entry failing that validation (and an `MMM DD YYYY` entry
whose date is invalid in its own year) produces no parsed timestamp; a valid
`MMM DD YYYY` entry is converted to UTC with the same offset. -/
theorem C8_ftp_timestamp (nowUtcSec : Nat) (offsetSec : Int)
    (m d h mi y : Nat) :
    ((validDate 1900 m d && validTime h mi) = true →
      list_ftp_parse_modified nowUtcSec offsetSec (.hm m d h mi) =
        some (ftp_hm_heuristic nowUtcSec offsetSec m d h mi)) ∧
    (ftp_hm_heuristic nowUtcSec offsetSec m d h mi =
      spec_ftp_modified nowUtcSec offsetSec (.hm m d h mi)) ∧
    (toSec (dtFromSec (Int.toNat (nowUtcSec + offsetSec))) <
        toSec ⟨(dtFromSec (Int.toNat (nowUtcSec + offsetSec))).year,
          m, d, h, mi, 0⟩ →
      ftp_hm_heuristic nowUtcSec offsetSec m d h mi =
        (toSec ⟨(dtFromSec (Int.toNat (nowUtcSec + offsetSec))).year - 1,
          m, d, h, mi, 0⟩ : Int) - offsetSec) ∧
    (¬toSec (dtFromSec (Int.toNat (nowUtcSec + offsetSec))) <
        toSec ⟨(dtFromSec (Int.toNat (nowUtcSec + offsetSec))).year,
          m, d, h, mi, 0⟩ →
      ftp_hm_heuristic nowUtcSec offsetSec m d h mi =
        (toSec ⟨(dtFromSec (Int.toNat (nowUtcSec + offsetSec))).year,
          m, d, h, mi, 0⟩ : Int) - offsetSec) ∧
    ((validDate 1900 m d && validTime h mi) = false →
      list_ftp_parse_modified nowUtcSec offsetSec (.hm m d h mi) = none) ∧
    (validDate y m d = true →
      list_ftp_parse_modified nowUtcSec offsetSec (.ymd m d y) =
        some ((toSec ⟨y, m, d, 0, 0, 0⟩ : Int) - offsetSec)) ∧
    (validDate y m d = false →
      list_ftp_parse_modified nowUtcSec offsetSec (.ymd m d y) = none) := by
  refine ⟨?_, rfl, ?_, ?_, ?_, ?_, ?_⟩
  · intro hv
    simp [list_ftp_parse_modified, hv]
  · intro hfut
    show ((if toSec (dtFromSec (Int.toNat (nowUtcSec + offsetSec))) <
        toSec ⟨(dtFromSec (Int.toNat (nowUtcSec + offsetSec))).year,
          m, d, h, mi, 0⟩ then _ else _ : DT) |> toSec : Int) - offsetSec = _
    rw [if_pos hfut]
  · intro hfut
    show ((if toSec (dtFromSec (Int.toNat (nowUtcSec + offsetSec))) <
        toSec ⟨(dtFromSec (Int.toNat (nowUtcSec + offsetSec))).year,
          m, d, h, mi, 0⟩ then _ else _ : DT) |> toSec : Int) - offsetSec = _
    rw [if_neg hfut]
  · intro hv
    simp [list_ftp_parse_modified, hv]
  · intro hv
    simp [list_ftp_parse_modified, hv]
  · intro hv
    simp [list_ftp_parse_modified, hv]

/-- Claim C8 amended, witness.  With offset UTC−5: now = 2025-01-10 17:00 UTC
(local 12:00), the valid yearless entry `Dec 30 13:00` is in the local
future, so it gets year 2024 and is converted to UTC; the yearless entry
`Feb 29 14:23` fails the year-1900 validation and yields no timestamp;
`Feb 29 2024` is a valid dated entry and converts, while `Feb 29 2025` is
invalid and yields no timestamp. -/
theorem C8_ftp_timestamp_witness :
    (validDate 1900 12 30 && validTime 13 0) = true ∧
    list_ftp_parse_modified (toSec ⟨2025, 1, 10, 17, 0, 0⟩) (-18000)
        (.hm 12 30 13 0) =
      some ((toSec ⟨2024, 12, 30, 13, 0, 0⟩ : Int) - (-18000)) ∧
    (validDate 1900 2 29 && validTime 14 23) = false ∧
    list_ftp_parse_modified (toSec ⟨2025, 3, 10, 17, 0, 0⟩) (-18000)
        (.hm 2 29 14 23) = none ∧
    validDate 2024 2 29 = true ∧
    list_ftp_parse_modified (toSec ⟨2025, 3, 10, 17, 0, 0⟩) (-18000)
        (.ymd 2 29 2024) =
      some ((toSec ⟨2024, 2, 29, 0, 0, 0⟩ : Int) - (-18000)) ∧
    validDate 2025 2 29 = false ∧
    list_ftp_parse_modified (toSec ⟨2025, 3, 10, 17, 0, 0⟩) (-18000)
        (.ymd 2 29 2025) = none := by
  refine ⟨by decide, ?_, by decide, ?_, by decide, ?_, by decide, ?_⟩
  · have h1 := (C8_ftp_timestamp (toSec ⟨2025, 1, 10, 17, 0, 0⟩) (-18000)
      12 30 13 0 2024).1 (by decide)
    have h2 := (C8_ftp_timestamp (toSec ⟨2025, 1, 10, 17, 0, 0⟩) (-18000)
      12 30 13 0 2024).2.2.1 (by decide)
    rw [h1, h2]
    decide
  · exact (C8_ftp_timestamp (toSec ⟨2025, 3, 10, 17, 0, 0⟩) (-18000)
      2 29 14 23 2024).2.2.2.2.1 (by decide)
  · exact (C8_ftp_timestamp (toSec ⟨2025, 3, 10, 17, 0, 0⟩) (-18000)
      2 29 0 0 2024).2.2.2.2.2.1 (by decide)
  · exact (C8_ftp_timestamp (toSec ⟨2025, 3, 10, 17, 0, 0⟩) (-18000)
      2 29 0 0 2025).2.2.2.2.2.2 (by decide)

/-- A decimal payload field: nonempty ASCII decimal text (digits, decimal
point, sign). -/
def decimalField (f : String) : Bool :=
  decide (f ≠ "") &&
    f.data.all (fun c => c.isDigit || c == '.' || c == '-' || c == '+')

/-- Python `",".join(...)`. -/
def joinComma : List String → String
  | [] => ""
  | [x] => x
  | x :: xs => x ++ "," ++ joinComma xs

/-- Re-serialize the six positional scalars of a snapshot with commas. -/
def reserialize6 (s : NL43Snapshot) : String :=
  joinComma [s.counter.getD "", s.lp.getD "", s.leq.getD "", s.lmax.getD "",
             s.lmin.getD "", s.lpeak.getD ""]

theorem decimal_char_not_ws (c : Char)
    (h : (c.isDigit || c == '.' || c == '-' || c == '+') = true) :
    wsChar c = false := by
  simp only [Bool.or_eq_true, beq_iff_eq] at h
  simp only [wsChar, Bool.or_eq_false_iff, beq_eq_false_iff_ne, ne_eq]
  refine ⟨⟨⟨⟨⟨?_, ?_⟩, ?_⟩, ?_⟩, ?_⟩, ?_⟩ <;>
    · intro hc
      subst hc
      revert h
      decide

theorem dropWhile_ws_eq_self (l : List Char)
    (h : ∀ c ∈ l, wsChar c = false) : l.dropWhile wsChar = l := by
  cases l with
  | nil => rfl
  | cons c cs =>
    rw [List.dropWhile_cons, h c (by simp)]
    simp

theorem trimChars_eq_self (l : List Char)
    (h : ∀ c ∈ l, wsChar c = false) : trimChars l = l := by
  unfold trimChars
  rw [dropWhile_ws_eq_self l h,
      dropWhile_ws_eq_self l.reverse (fun c hc => h c (List.mem_reverse.mp hc)),
      List.reverse_reverse]

theorem pyStrip_decimal (f : String) (h : decimalField f = true) :
    pyStrip f = f := by
  obtain ⟨data⟩ := f
  unfold pyStrip
  rw [trimChars_eq_self]
  intro c hc
  apply decimal_char_not_ws
  unfold decimalField at h
  simp only [Bool.and_eq_true, List.all_eq_true] at h
  exact h.2 c hc

theorem decimal_nonempty (f : String) (h : decimalField f = true) :
    f ≠ "" := by
  unfold decimalField at h
  simp only [Bool.and_eq_true, decide_eq_true_eq] at h
  exact h.1

theorem splitFields_decimal (resp : String)
    (h : ∀ f ∈ pySplitComma resp, decimalField f = true) :
    splitFields resp = pySplitComma resp := by
  unfold splitFields
  rw [List.map_congr_left (fun f hf => pyStrip_decimal f (h f hf)),
      List.map_id']
  rw [List.filter_eq_self.mpr]
  intro a ha
  exact decide_eq_true (decimal_nonempty a (h a ha))

/-- Claim C10: for any decimal DOD payload with at least six comma-separated
fields (every field nonempty decimal text, no `$` prompt), parsing succeeds,
and re-serializing the six positional scalars with commas reproduces the join
of the payload's first six comma-separated fields. -/
theorem C10_round_trip (resp st : String)
    (hdec : ∀ f ∈ pySplitComma resp, decimalField f = true)
    (hlen : 6 ≤ (pySplitComma resp).length)
    (hds : startsDollar resp = false) :
    request_dod_parse resp st =
      .ok (fillScalars { measurement_state := st, raw_payload := some resp }
        (pySplitComma resp)) ∧
    ∀ snap, request_dod_parse resp st = .ok snap →
      reserialize6 snap = joinComma ((pySplitComma resp).take 6) := by
  have hne : resp ≠ "" := by
    intro he
    rw [he] at hlen
    exact absurd hlen (by decide)
  have hsf : splitFields resp = pySplitComma resp := splitFields_decimal resp hdec
  have hlt : ¬(splitFields resp).length < 2 := by
    rw [hsf]
    omega
  have hok : request_dod_parse resp st =
      .ok (fillScalars { measurement_state := st, raw_payload := some resp }
        (pySplitComma resp)) := by
    rw [request_dod_parse, if_neg hne, if_neg (by rw [hds]; simp : ¬startsDollar resp = true)]
    rw [if_neg hlt, hsf]
  refine ⟨hok, ?_⟩
  intro snap hsnap
  rw [hok] at hsnap
  injection hsnap with hsnap'
  subst hsnap'
  rcases hsp : pySplitComma resp with
    _ | ⟨a, _ | ⟨b, _ | ⟨c, _ | ⟨d, _ | ⟨e, _ | ⟨f0, rest⟩⟩⟩⟩⟩⟩
  · exfalso; rw [hsp] at hlen; simp at hlen
  · exfalso; rw [hsp] at hlen; simp at hlen
  · exfalso; rw [hsp] at hlen; simp at hlen
  · exfalso; rw [hsp] at hlen; simp at hlen
  · exfalso; rw [hsp] at hlen; simp at hlen
  · exfalso; rw [hsp] at hlen; simp at hlen
  · simp [reserialize6, fillScalars, joinComma]

/-- Claim C10, witness: the six-field decimal payload
`"12,70.1,71.2,75.0,60.0,80.0"` parses and re-serializes to itself. -/
theorem C10_round_trip_witness :
    (∀ f ∈ pySplitComma "12,70.1,71.2,75.0,60.0,80.0", decimalField f = true) ∧
    6 ≤ (pySplitComma "12,70.1,71.2,75.0,60.0,80.0").length ∧
    startsDollar "12,70.1,71.2,75.0,60.0,80.0" = false ∧
    (∀ snap, request_dod_parse "12,70.1,71.2,75.0,60.0,80.0" "Start" = .ok snap →
      reserialize6 snap =
        joinComma ((pySplitComma "12,70.1,71.2,75.0,60.0,80.0").take 6)) ∧
    joinComma ((pySplitComma "12,70.1,71.2,75.0,60.0,80.0").take 6) =
      "12,70.1,71.2,75.0,60.0,80.0" := by
  refine ⟨by decide, by decide, by decide, ?_, by decide⟩
  exact (C10_round_trip "12,70.1,71.2,75.0,60.0,80.0" "Start"
    (by decide) (by decide) (by decide)).2

end SLMM
